import Mathlib

/-!
Verification of the person-search authentication/authorization layer.

This file gives a shallow embedding, in Lean, of the OAuth 2.1 proxy and
request-authentication code of the repository:

* `src/unnamed/part_008` (`lib/oauth-utils.ts`): parameter validation,
  redirect-URI normalization, token-response construction;
* `src/lib/url-resolver.ts`: base-URL resolution and the redirect-URI
  allow-list check;
* `src/app/api/auth/callback/google/route.ts`: session issuance and the
  authorization endpoint;
* `src/unnamed/part_005` (session-status endpoint): session validation;
* `src/unnamed/part_004` (token endpoint): the code-for-token exchange flow;
* `src/app/api/mcp/route.ts`: the JSON-RPC request authenticator and method
  dispatcher;
* `src/app/actions/mcp-actions.ts` with `src/lib/mcp-server.ts`: the MCP tool
  handler and its zod input schemas;
* `src/app/api/auth/logout/route.ts`: the logout handlers.

JavaScript strings are modelled as Lean `String`s; values that may be
`undefined`/`null` are modelled as `Option`; JavaScript truthiness on strings
(`undefined`, `null` and `""` are falsy) is the `truthy` predicate below.
External collaborators (the Google token verifier, the upstream token
exchange, the Prisma-backed CRUD actions, the zod e-mail validator and the
platform `URL` constructor) are passed in as explicit function arguments, so
every theorem quantifies over their behaviour.
-/

namespace PersonSearch

/-- Truthiness of a JavaScript string value: `undefined`/`null` (here `none`)
and the empty string are falsy, every other string is truthy. -/
def truthy : Option String → Bool
  | none => false
  | some s => !s.isEmpty

/-- JavaScript `a || b` for a possibly-absent string `a` and a string `b`. -/
def jsOr (a : Option String) (b : String) : String :=
  match a with
  | none => b
  | some s => if s.isEmpty then b else s

/-- JavaScript `a || b` for a possibly-absent number `a` (zero is falsy). -/
def jsOrNat (a : Option Nat) (b : Nat) : Nat :=
  match a with
  | none => b
  | some n => if n = 0 then b else n

/-- Replace the first occurrence of `pat` in a character list by `rep`,
leaving the list unchanged when `pat` does not occur.  This is the semantics
of JavaScript `String.prototype.replace` with a string (non-regex) pattern. -/
def replaceFirstList (pat rep : List Char) : List Char → List Char
  | [] => []
  | c :: rest =>
    if pat.isPrefixOf (c :: rest) then rep ++ (c :: rest).drop pat.length
    else c :: replaceFirstList pat rep rest

/-- String version of `replaceFirstList`: JavaScript `s.replace(pat, rep)`
for a plain-string `pat` (first occurrence only). -/
def replaceFirst (s pat rep : String) : String :=
  ⟨replaceFirstList pat.data rep.data s.data⟩

/-- Drop a single trailing `'/'` from a character list, if present: the
semantics of JavaScript `s.replace(/\/$/, "")`. -/
def stripSlashList (l : List Char) : List Char :=
  if l.getLast? = some '/' then l.dropLast else l

/-- JavaScript `s.replace(/\/$/, "")`: remove one trailing slash. -/
def stripTrailingSlash (s : String) : String :=
  ⟨stripSlashList s.data⟩

/-- ASCII lower-casing; models JavaScript `toLowerCase()` on the ASCII
alphabet (the only case-bearing characters appearing in the URIs at play). -/
def lowerString (s : String) : String :=
  ⟨s.data.map Char.toLower⟩

/-! ## `lib/oauth-utils.ts` (src/unnamed/part_008) -/

/-- OAuth 2.1 authorization-request parameters
(`OAuth21AuthParams` in `src/lib/auth-types.ts`). -/
structure OAuth21AuthParams where
  response_type : Option String
  client_id : Option String
  redirect_uri : Option String
  scope : Option String
  state : Option String
  code_challenge : Option String
  code_challenge_method : Option String
deriving DecidableEq

/-- Token exchange parameters (`TokenExchangeParams` in
`src/lib/auth-types.ts`). -/
structure TokenExchangeParams where
  grant_type : Option String
  code : Option String
  redirect_uri : Option String
  client_id : Option String
  client_secret : Option String
  code_verifier : Option String
deriving DecidableEq

/-- Result shape of `validateAuthParams` / `validateTokenParams` in
`lib/oauth-utils.ts`. -/
structure ValidationResult where
  isValid : Bool
  error : Option String
  errorDescription : Option String
deriving DecidableEq

/-- Embedding of `validateAuthParams` (src/unnamed/part_008, lines 127-169). -/
def validateAuthParams (params : OAuth21AuthParams) : ValidationResult :=
  if params.response_type ≠ some "code" then
    ⟨false, some "unsupported_response_type",
      some "Only \x27code\x27 response type is supported"⟩
  else if !truthy params.client_id then
    ⟨false, some "invalid_request", some "Missing client_id"⟩
  else if !truthy params.redirect_uri then
    ⟨false, some "invalid_request", some "Missing redirect_uri"⟩
  else if truthy params.code_challenge ∧
      params.code_challenge_method ≠ some "S256" then
    ⟨false, some "invalid_request",
      some "Only S256 code challenge method is supported"⟩
  else ⟨true, none, none⟩

/-- Embedding of `validateTokenParams` (src/unnamed/part_008, lines 174-207). -/
def validateTokenParams (params : TokenExchangeParams) : ValidationResult :=
  if params.grant_type ≠ some "authorization_code" then
    ⟨false, some "unsupported_grant_type",
      some "Only authorization_code grant type is supported"⟩
  else if !truthy params.code then
    ⟨false, some "invalid_request", some "Missing authorization code"⟩
  else if !truthy params.redirect_uri then
    ⟨false, some "invalid_request", some "Missing redirect_uri"⟩
  else ⟨true, none, none⟩

/-- Embedding of `normalizeRedirectUri` (src/unnamed/part_008, lines
120-122): `uri.replace("127.0.0.1", "localhost").replace(/\/$/, "").toLowerCase()`. -/
def normalizeRedirectUri (uri : String) : String :=
  lowerString (stripTrailingSlash (replaceFirst uri "127.0.0.1" "localhost"))

/-- Google token payload (`GoogleTokens` in `src/lib/auth-types.ts`); numbers
are modelled as `Nat`. -/
structure GoogleTokens where
  access_token : Option String
  id_token : Option String
  refresh_token : Option String
  expires_in : Option Nat
  token_type : Option String
  scope : Option String
deriving DecidableEq

/-- OAuth 2.1 token response (`TokenResponse` in `src/lib/auth-types.ts`). -/
structure TokenResponse where
  access_token : String
  token_type : String
  expires_in : Nat
  refresh_token : Option String
  scope : Option String
  id_token : Option String
deriving DecidableEq

/-- Embedding of `buildTokenResponse` (src/unnamed/part_008, lines 212-235).
The optional `refresh_token`/`id_token` fields are attached only when the
corresponding Google token is truthy, exactly as in the source. -/
def buildTokenResponse (googleTokens : GoogleTokens) (scope : Option String)
    (fallbackScope : String) : TokenResponse :=
  { access_token := jsOr googleTokens.id_token (jsOr googleTokens.access_token "")
    token_type := "Bearer"
    expires_in := jsOrNat googleTokens.expires_in 3600
    refresh_token :=
      if truthy googleTokens.refresh_token then googleTokens.refresh_token else none
    scope := some (jsOr scope fallbackScope)
    id_token :=
      if truthy googleTokens.id_token then googleTokens.id_token else none }

/-! ## `src/lib/url-resolver.ts` -/

/-- The environment variables consulted by `url-resolver.ts` and the OAuth
endpoints; `none` models an unset variable. -/
structure Env where
  PRODUCTION_URL : Option String
  NEXTAUTH_URL : Option String
  VERCEL_URL : Option String
  VERCEL_ENV : Option String
  VERCEL_PROJECT_PRODUCTION_URL : Option String
  NODE_ENV : Option String
  PORT : Option String
  HOST : Option String
  GOOGLE_CLIENT_ID : Option String
  GOOGLE_CLIENT_SECRET : Option String
deriving DecidableEq

/-- The environment with every variable unset. -/
def emptyEnv : Env :=
  ⟨none, none, none, none, none, none, none, none, none, none⟩

/-- Embedding of `getBaseUrl` (src/lib/url-resolver.ts, lines 12-41). -/
def getBaseUrl (env : Env) : String :=
  if truthy env.PRODUCTION_URL then
    stripTrailingSlash (jsOr env.PRODUCTION_URL "")
  else if truthy env.NEXTAUTH_URL then
    stripTrailingSlash (jsOr env.NEXTAUTH_URL "")
  else if truthy env.VERCEL_URL then
    if env.VERCEL_ENV = some "production" ∧
        truthy env.VERCEL_PROJECT_PRODUCTION_URL then
      "https://" ++ jsOr env.VERCEL_PROJECT_PRODUCTION_URL ""
    else
      "https://" ++ jsOr env.VERCEL_URL ""
  else if env.NODE_ENV = some "development" then
    "http://" ++ jsOr env.HOST "localhost" ++ ":" ++ jsOr env.PORT "3000"
  else
    "http://localhost:3000"

/-- Embedding of `getRedirectUris().google`
(src/lib/url-resolver.ts, lines 142-151). -/
def googleRedirectUri (env : Env) : String :=
  getBaseUrl env ++ "/api/auth/callback/google"

/-- The `allowedRedirects` list built inside `isAllowedRedirectUri`
(src/lib/url-resolver.ts, lines 157-186). -/
def allowedRedirects (env : Env) : List String :=
  [googleRedirectUri env,
   "http://localhost:3000/api/auth/callback/google",
   "http://127.0.0.1:3000/api/auth/callback/google",
   "https://person-search-pearl.vercel.app/api/auth/callback/google"]
  ++ (if truthy env.NEXTAUTH_URL then
        [stripTrailingSlash (jsOr env.NEXTAUTH_URL "" ++ "/api/auth/callback/google")]
      else [])
  ++ (if truthy env.PRODUCTION_URL then
        [stripTrailingSlash (jsOr env.PRODUCTION_URL "" ++ "/api/auth/callback/google")]
      else [])
  ++ (if truthy env.VERCEL_URL then
        ["https://" ++ jsOr env.VERCEL_URL "" ++ "/api/auth/callback/google"]
      else [])

/-- The inline normalization used for the allow-list comparison in
`isAllowedRedirectUri` (src/lib/url-resolver.ts, lines 198-201):
`url.replace("127.0.0.1", "localhost").replace(/\/$/, "")`.
It unifies the loopback alias and strips one trailing slash; note that,
unlike `normalizeRedirectUri`, it does not lower-case. -/
def allowListNorm (url : String) : String :=
  stripTrailingSlash (replaceFirst url "127.0.0.1" "localhost")

/-- Embedding of `isAllowedRedirectUri` (src/lib/url-resolver.ts, lines
156-204): the normalized request URI must equal the normalized form of some
allow-list entry. -/
def isAllowedRedirectUri (env : Env) (uri : String) : Bool :=
  ((allowedRedirects env).map allowListNorm).contains (allowListNorm uri)

/-! ## Session lifecycle

Issuance lives in `src/app/api/auth/callback/google/route.ts` (lines
167-185): the session cookie value is `btoa(JSON.stringify({sub, email,
name, iat, exp}))`.  Validation lives in the session-status endpoint
`src/unnamed/part_005` (lines 20-58): `JSON.parse(atob(cookie))`, then an
expiry check.  The base64/JSON serialization round-trip of the platform is
modelled by the `SessionCredential` type below: `encoded d` stands for the
string `btoa(JSON.stringify(d))` (serialization is injective and always
decodes back to `d`), while `malformed raw` stands for any string on which
`JSON.parse(atob(raw))` throws, i.e. any garbage credential. -/

/-- The decoded session object written by the Google callback route. -/
structure SessionData where
  sub : String
  email : String
  name : String
  iat : Nat
  exp : Nat
deriving DecidableEq

/-- A session cookie value, as seen by the decoding sites. -/
inductive SessionCredential where
  | encoded (data : SessionData)
  | malformed (raw : String)
deriving DecidableEq

/-- Embedding of the session issuance in the Google callback route
(src/app/api/auth/callback/google/route.ts, lines 170-176): `iat = now`,
`exp = now + 60*60*24`. -/
def issueSessionToken (sub email name : String) (now : Nat) : SessionCredential :=
  .encoded ⟨sub, email, name, now, now + 60 * 60 * 24⟩

/-- The `user` object returned by the session-status endpoint. -/
structure SessionUser where
  sub : String
  email : String
  name : String
  exp : Nat
deriving DecidableEq

/-- Response of the session-status endpoint. -/
structure SessionStatus where
  authenticated : Bool
  user : Option SessionUser
  message : String
  cookieDeleted : Bool
deriving DecidableEq

/-- Embedding of the session-status `GET` handler (src/unnamed/part_005,
lines 7-58).  `cookie = none` models a request with no `oauth_session`
cookie; the `sessionData.exp && sessionData.exp < now` truthiness guard is
the `d.exp ≠ 0 ∧ d.exp < now` condition.  The handler catches every decode
failure, so the function is total. -/
def sessionStatus (cookie : Option SessionCredential) (now : Nat) : SessionStatus :=
  match cookie with
  | none => ⟨false, none, "No session found", false⟩
  | some (.malformed _) => ⟨false, none, "Invalid session format", true⟩
  | some (.encoded d) =>
    if d.exp ≠ 0 ∧ d.exp < now then ⟨false, none, "Session expired", false⟩
    else ⟨true, some ⟨d.sub, d.email, d.name, d.exp⟩, "Session valid", false⟩

/-! ## MCP request authentication (`src/app/api/mcp/route.ts`) -/

/-- Identity returned by `verifyGoogleToken` (the upstream verifier in
`lib/auth`, an external collaborator of this layer). -/
structure VerifiedUser where
  sub : String
  email : String
  name : String
deriving DecidableEq

/-- The user context attached to an authenticated MCP request: either the
upstream-verified bearer identity or the session-cookie identity assembled
at src/app/api/mcp/route.ts lines 114-125. -/
inductive MCPUser where
  | bearer (u : VerifiedUser)
  | session (d : SessionData)
deriving DecidableEq

/-- Result of `authenticateMCPRequest`: the `error*` fields describe the
JSON-RPC error response built on the failure paths (all of which carry the
code `-32603`). -/
structure MCPAuthResult where
  authenticated : Bool
  user : Option MCPUser
  error : Option String
  errorCode : Option Int
  errorMessage : Option String
  status : Option Nat
deriving DecidableEq

/-- Bearer-token extraction (src/app/api/mcp/route.ts, lines 34-36):
the ternary on `authHeader` testing the `Bearer `-scheme head and slicing it off. -/
def stripBearer (h : String) : String :=
  if ("Bearer ".data).isPrefixOf h.data then ⟨h.data.drop 7⟩ else h

/-- The session-cookie half of `authenticateMCPRequest`
(src/app/api/mcp/route.ts, lines 81-171), reached when no authorization
header is present or the bearer token failed verification.  The
`sessionData.exp && sessionData.exp < now` guard is as in `sessionStatus`. -/
def trySessionCookie (cookie : Option SessionCredential) (now : Nat) : MCPAuthResult :=
  match cookie with
  | some (.malformed _) =>
    ⟨false, none, some "Invalid session cookie", some (-32603),
      some "Unauthorized - Invalid session", some 401⟩
  | some (.encoded d) =>
    if d.exp ≠ 0 ∧ d.exp < now then
      ⟨false, none, some "Session expired", some (-32603),
        some "Unauthorized - Session expired", some 401⟩
    else
      ⟨true, some (.session d), none, none, none, none⟩
  | none =>
    ⟨false, none, some "Missing authorization header or session cookie",
      some (-32603),
      some "Unauthorized - Missing authorization header or session cookie",
      some 401⟩

/-- Embedding of `authenticateMCPRequest` (src/app/api/mcp/route.ts, lines
22-192).  `verify` models `verifyGoogleToken`; `verify t = none` covers both
a thrown verification error and a falsy result, which the source treats the
same way (the catch block logs and control falls through to the session
cookie).  Only an authorization header whose stripped token is empty is a
hard failure. -/
def authenticateMCPRequest (authHeader : Option String)
    (verify : String → Option VerifiedUser)
    (cookie : Option SessionCredential) (now : Nat) : MCPAuthResult :=
  if truthy authHeader then
    let token := stripBearer (jsOr authHeader "")
    if token.isEmpty then
      ⟨false, none, some "Invalid authorization header format", some (-32603),
        some "Unauthorized - Invalid token format", some 401⟩
    else
      match verify token with
      | some u => ⟨true, some (.bearer u), none, none, none, none⟩
      | none => trySessionCookie cookie now
  else
    trySessionCookie cookie now

/-- Embedding of `requiresAuthentication` (src/app/api/mcp/route.ts, lines
197-201): every method outside the public list is protected. -/
def requiresAuthentication (method : String) : Bool :=
  !(["initialize", "tools/list"].contains method)

/-! ## MCP tool handler (`src/app/actions/mcp-actions.ts`)

Tool arguments arrive as a JSON object `Record<string, unknown>`.  The zod
schemas of `src/lib/mcp-server.ts` only ever inspect the five keys below and
only distinguish, for each key, absence, a string value, and a non-string
value; `ToolArgs`/`JSVal` model exactly that.  The zod e-mail validator is
an external library predicate and is passed in as `emailValid`. -/

/-- A JSON value under a schema key: a string, or anything else. -/
inductive JSVal where
  | str (s : String)
  | nonString
deriving DecidableEq

/-- The argument object of an MCP tool call, restricted to the keys the zod
schemas inspect. -/
structure ToolArgs where
  query : Option JSVal
  name : Option JSVal
  email : Option JSVal
  phoneNumber : Option JSVal
  id : Option JSVal
deriving DecidableEq

/-- The empty argument object (`args || {}` with no keys set). -/
def emptyArgs : ToolArgs := ⟨none, none, none, none, none⟩

/-- Extract a string value: `z.string()` fails on a missing key and on a
non-string value. -/
def asStr : Option JSVal → Option String
  | some (.str s) => some s
  | _ => none

/-- The phone pattern `^04\d{8}$` of the zod schemas: the literal characters
`04` followed by exactly eight ASCII digits. -/
def ausMobile (s : String) : Bool :=
  s.take 2 = "04" && (s.drop 2).length = 8 && (s.drop 2).data.all Char.isDigit

/-- Parse under `searchUsersSchema`: `query` must be a string. -/
def parseSearchUsers (args : ToolArgs) : Option String :=
  asStr args.query

/-- Validated input of `add_user`. -/
structure AddUserData where
  name : String
  email : String
  phoneNumber : String
deriving DecidableEq

/-- Parse under `addUserSchema`: `name` a string of length ≥ 2, `email` a
string accepted by the zod e-mail validator, `phoneNumber` a string matching
`^04\d{8}$`. -/
def parseAddUser (emailValid : String → Bool) (args : ToolArgs) : Option AddUserData :=
  match asStr args.name, asStr args.email, asStr args.phoneNumber with
  | some n, some e, some p =>
    if decide (2 ≤ n.length) && emailValid e && ausMobile p then some ⟨n, e, p⟩
    else none
  | _, _, _ => none

/-- An optional schema field (`.optional()`): absence is fine, a present
value must be a string passing `check`. -/
def parseOptField (check : String → Bool) : Option JSVal → Option (Option String)
  | none => some none
  | some (.str s) => if check s then some (some s) else none
  | some .nonString => none

/-- The update payload left after `updateUserSchema.parse` drops the `id`. -/
structure UpdateUserData where
  name : Option String
  email : Option String
  phoneNumber : Option String
deriving DecidableEq

/-- Parse under `updateUserSchema`: `id` a required string, the remaining
fields optional with the same constraints as `addUserSchema`. -/
def parseUpdateUser (emailValid : String → Bool) (args : ToolArgs) :
    Option (String × UpdateUserData) :=
  match asStr args.id with
  | none => none
  | some i =>
    match parseOptField (fun n => decide (2 ≤ n.length)) args.name,
        parseOptField emailValid args.email,
        parseOptField ausMobile args.phoneNumber with
    | some n, some e, some p => some (i, ⟨n, e, p⟩)
    | _, _, _ => none

/-- A directory record as handled by the CRUD actions. -/
structure Person where
  id : String
  name : String
  email : String
  phoneNumber : String
deriving DecidableEq

/-- The Prisma-backed CRUD actions of `app/actions/actions.ts`, external
collaborators of the tool handler.  `Except.error e` models a thrown
exception with message `e`. -/
structure ActionsOracle where
  searchUsers : String → Except String (List Person)
  addUser : AddUserData → Except String Person
  updateUser : String → UpdateUserData → Except String Person
  deleteUser : String → Except String Unit
  getUserById : String → Except String (Option Person)

/-- The `data` part of a tool payload. -/
inductive MCPToolData where
  | noData
  | usersData (l : List Person)
  | userData (p : Person)
deriving DecidableEq

/-- The JSON payload `handleMCPTool` serializes with `JSON.stringify`:
a `success` flag, a `message`, and optional `data`.  (The source also
attaches a `requestedBy`/`createdBy`/... echo of the user context and, for
zod failures, the issue list; neither carries decision content.) -/
structure MCPToolResult where
  success : Bool
  message : String
  data : MCPToolData
deriving DecidableEq

/-- The user context handed to `handleMCPTool` by the MCP route. -/
structure MCPUserContext where
  clientId : String
  email : Option String
  name : Option String
deriving DecidableEq

/-- Embedding of `handleMCPTool` (src/app/actions/mcp-actions.ts, lines
23-183).  A schema-parse failure is the `ZodError` branch of the catch block
(`"Invalid input parameters"`); a CRUD-action `Except.error e` is the
generic catch branch (`error.message`); an unknown tool name is the `default`
switch arm.  The Lean function is total: no input reaches an uncaught
exception, mirroring the top-level try/catch of the source. -/
def handleMCPTool (emailValid : String → Bool) (acts : ActionsOracle)
    (toolName : String) (args : ToolArgs) (_user : Option MCPUserContext) :
    MCPToolResult :=
  match toolName with
  | "search_users" =>
    match parseSearchUsers args with
    | none => ⟨false, "Invalid input parameters", .noData⟩
    | some query =>
      match acts.searchUsers query with
      | .error e => ⟨false, e, .noData⟩
      | .ok users =>
        ⟨true, "Found " ++ toString users.length ++ " user(s)", .usersData users⟩
  | "add_user" =>
    match parseAddUser emailValid args with
    | none => ⟨false, "Invalid input parameters", .noData⟩
    | some userData =>
      match acts.addUser userData with
      | .error e => ⟨false, e, .noData⟩
      | .ok newUser =>
        ⟨true, "Successfully created user: " ++ newUser.name, .userData newUser⟩
  | "update_user" =>
    match parseUpdateUser emailValid args with
    | none => ⟨false, "Invalid input parameters", .noData⟩
    | some (i, upd) =>
      if upd.name = none ∧ upd.email = none ∧ upd.phoneNumber = none then
        ⟨false, "No valid fields provided for update", .noData⟩
      else
        match acts.updateUser i upd with
        | .error e => ⟨false, e, .noData⟩
        | .ok updatedUser =>
          ⟨true, "Successfully updated user: " ++ updatedUser.name, .userData updatedUser⟩
  | "delete_user" =>
    match asStr args.id with
    | none => ⟨false, "Invalid input parameters", .noData⟩
    | some i =>
      match acts.deleteUser i with
      | .error e => ⟨false, e, .noData⟩
      | .ok _ => ⟨true, "Successfully deleted user with ID: " ++ i, .noData⟩
  | "get_user_by_id" =>
    match asStr args.id with
    | none => ⟨false, "Invalid input parameters", .noData⟩
    | some i =>
      match acts.getUserById i with
      | .error e => ⟨false, e, .noData⟩
      | .ok none => ⟨false, "User with ID " ++ i ++ " not found", .noData⟩
      | .ok (some foundUser) =>
        ⟨true, "Retrieved user: " ++ foundUser.name, .userData foundUser⟩
  | _ => ⟨false, "Unknown tool: " ++ toolName, .noData⟩

/-- Whether the schema parse of the given known tool succeeds on `args`;
`update_user`, `delete_user` and `get_user_by_id` only require what their
schemas require. -/
def toolSchemaOk (emailValid : String → Bool) (toolName : String)
    (args : ToolArgs) : Bool :=
  match toolName with
  | "search_users" => (parseSearchUsers args).isSome
  | "add_user" => (parseAddUser emailValid args).isSome
  | "update_user" => (parseUpdateUser emailValid args).isSome
  | "delete_user" => (asStr args.id).isSome
  | "get_user_by_id" => (asStr args.id).isSome
  | _ => true

/-! ## MCP JSON-RPC dispatcher (`src/app/api/mcp/route.ts`, `POST`) -/

/-- A JSON-RPC request id: number or string. -/
inductive JsonId where
  | num (n : Int)
  | str (s : String)
deriving DecidableEq

/-- The `params` member of an MCP `tools/call` request. -/
structure MCPParams where
  name : Option JSVal
  arguments : Option ToolArgs
deriving DecidableEq

/-- A parsed MCP request body (`MCPRequest` in the route). -/
structure MCPRequestBody where
  jsonrpc : String
  id : JsonId
  method : String
  params : Option MCPParams
deriving DecidableEq

/-- The body of the response built by the `POST` handler. -/
inductive MCPResponseBody where
  | initializeResult
  | toolsListResult
  | toolCallResult (r : MCPToolResult)
  | noContent
  | rpcError (code : Int) (message : String)
deriving DecidableEq

/-- The response of the `POST` handler, together with whether `handleMCPTool`
was invoked (`toolInvoked` is the side-effect marker for the data store:
every CRUD access of a tool sits behind that call). -/
structure MCPPostResponse where
  status : Nat
  idEcho : Option JsonId
  body : MCPResponseBody
  toolInvoked : Bool
deriving DecidableEq

/-- The `validTools` list of the route (src/app/api/mcp/route.ts, line 290). -/
def validTools : List String :=
  ["search_users", "add_user", "update_user", "delete_user", "get_user_by_id"]

/-- The method dispatch of the `POST` handler (src/app/api/mcp/route.ts,
lines 227-367), run after authentication has succeeded or been skipped;
`userCtx` is the user context attached to the request by the authentication
step (absent for public methods). -/
def mcpDispatch (emailValid : String → Bool) (acts : ActionsOracle)
    (userCtx : Option MCPUserContext) (body : MCPRequestBody) : MCPPostResponse :=
  match body.method with
  | "initialize" => ⟨200, some body.id, .initializeResult, false⟩
  | "tools/list" => ⟨200, some body.id, .toolsListResult, false⟩
  | "tools/call" =>
    match body.params with
    | none => ⟨200, some body.id, .rpcError (-32602) "Missing parameters", false⟩
    | some p =>
      match p.name with
      | some (.str name) =>
        if name.isEmpty then
          ⟨200, some body.id, .rpcError (-32602) "Invalid tool name", false⟩
        else if !validTools.contains name then
          ⟨200, some body.id,
            .rpcError (-32601) ("Tool \x27" ++ name ++ "\x27 not found"), false⟩
        else
          ⟨200, some body.id,
            .toolCallResult
              (handleMCPTool emailValid acts name (p.arguments.getD emptyArgs) userCtx),
            true⟩
      | _ => ⟨200, some body.id, .rpcError (-32602) "Invalid tool name", false⟩
  | "notifications/initialized" => ⟨204, none, .noContent, false⟩
  | _ =>
    ⟨200, some body.id,
      .rpcError (-32601) ("Method \x27" ++ body.method ++ "\x27 not found"), false⟩

/-- Embedding of the `POST` handler (src/app/api/mcp/route.ts, lines
203-385) on an already-parsed body: protected methods go through
`authenticateMCPRequest` and, on failure, its error response is returned
unchanged (with `id: null`) and no tool runs. -/
def mcpPOST (authHeader : Option String) (verify : String → Option VerifiedUser)
    (cookie : Option SessionCredential) (now : Nat)
    (emailValid : String → Bool) (acts : ActionsOracle)
    (body : MCPRequestBody) : MCPPostResponse :=
  if requiresAuthentication body.method then
    let auth := authenticateMCPRequest authHeader verify cookie now
    if !auth.authenticated then
      ⟨auth.status.getD 500, none,
        .rpcError (auth.errorCode.getD 0) (auth.errorMessage.getD ""), false⟩
    else
      let userCtx : Option MCPUserContext :=
        match auth.user with
        | some (.bearer u) => some ⟨u.sub, some u.email, some u.name⟩
        | some (.session d) => some ⟨d.sub, some d.email, some d.name⟩
        | none => some ⟨"", none, none⟩
      mcpDispatch emailValid acts userCtx body
  else
    mcpDispatch emailValid acts none body

/-! ## Token endpoint (`src/unnamed/part_004`) -/

/-- A decoded HTTP Basic authorization header: `ok cid sec` is a header
`Basic `+base64 of `cid:sec` (with `sec = none` when the decoded credential
has no colon); `malformed` is a header whose base64 payload makes `atob`
throw.  `none` at the use sites models an absent or non-Basic header. -/
inductive BasicAuthHeader where
  | ok (clientId : String) (secret : Option String)
  | malformed
deriving DecidableEq

/-- Result of the upstream `exchangeCodeForGoogleTokens` call. -/
inductive ExchangeResult where
  | ok (tokens : GoogleTokens)
  | err (e : String)

/-- Result of the upstream `verifyGoogleToken` call at the token endpoint:
`threw` models a thrown verification error, `nullish` a falsy result. -/
inductive VerifyOutcome where
  | ok (u : VerifiedUser)
  | threw (e : String)
  | nullish

/-- The response of the token endpoint: an OAuth error JSON or a token JSON. -/
inductive TokenOutcome where
  | errorResponse (error : String) (description : String)
  | tokenResponse (t : TokenResponse)
deriving DecidableEq

/-- Token-endpoint response plus whether the upstream code exchange ran. -/
structure TokenPostResult where
  outcome : TokenOutcome
  exchanged : Bool
deriving DecidableEq

/-- Client-secret resolution in the token endpoint (src/unnamed/part_004,
lines 74-91): the body secret wins when truthy; otherwise a Basic header
whose client id matches contributes its secret; otherwise the (falsy) body
value stands. -/
def resolveClientSecret (params : TokenExchangeParams)
    (basic : Option BasicAuthHeader) (googleClientId : String) : Option String :=
  if truthy params.client_secret then params.client_secret
  else
    match basic with
    | some (.ok cid sec) =>
      if cid = googleClientId then sec else params.client_secret
    | _ => params.client_secret

/-- Embedding of the token-endpoint `POST` handler (src/unnamed/part_004,
lines 18-188) on already-parsed parameters.  `exchange` and `verify` are the
upstream collaborators; `exchanged` records whether `exchange` was reached. -/
def tokenPOST (env : Env) (params : TokenExchangeParams)
    (basic : Option BasicAuthHeader)
    (exchange : String → String → ExchangeResult)
    (verify : String → VerifyOutcome) : TokenPostResult :=
  let v := validateTokenParams params
  if !v.isValid then
    ⟨.errorResponse (jsOr v.error "") (jsOr v.errorDescription ""), false⟩
  else if !truthy env.GOOGLE_CLIENT_ID || !truthy env.GOOGLE_CLIENT_SECRET then
    ⟨.errorResponse "server_error" "OAuth client not configured", false⟩
  else if params.client_id ≠ env.GOOGLE_CLIENT_ID then
    ⟨.errorResponse "invalid_client" "Invalid client identifier", false⟩
  else
    let clientSecret := resolveClientSecret params basic (jsOr env.GOOGLE_CLIENT_ID "")
    if !truthy clientSecret || clientSecret ≠ env.GOOGLE_CLIENT_SECRET then
      ⟨.errorResponse "invalid_client" "Invalid client authentication", false⟩
    else if !isAllowedRedirectUri env (jsOr params.redirect_uri "") then
      ⟨.errorResponse "invalid_request" "Invalid redirect_uri", false⟩
    else
      match exchange (jsOr params.code "") (jsOr params.redirect_uri "") with
      | .err _ => ⟨.errorResponse "invalid_grant" "Invalid authorization code", true⟩
      | .ok tokens =>
        match verify (jsOr tokens.id_token (jsOr tokens.access_token "")) with
        | .threw _ => ⟨.errorResponse "invalid_grant" "Token verification failed", true⟩
        | .nullish =>
          ⟨.errorResponse "invalid_grant" "Failed to verify user information", true⟩
        | .ok _ =>
          ⟨.tokenResponse
            (buildTokenResponse tokens
              (some "openid profile email read:mcp write:mcp persons:read persons:write")
              "openid profile email"), true⟩

/-! ## Authorization endpoint (second handler in
`src/app/api/auth/callback/google/route.ts`, lines 238-320) -/

/-- The upstream authorization request built by `getGoogleAuthUrl`
(src/lib/url-resolver.ts, lines 209-237), as its query parameters. -/
structure GoogleAuthRequest where
  client_id : String
  redirect_uri : String
  response_type : String
  scope : String
  state : Option String
  code_challenge : Option String
  code_challenge_method : Option String
deriving DecidableEq

/-- Embedding of `getGoogleAuthUrl`: `state` is forwarded when truthy, the
PKCE pair is forwarded only when both halves are truthy. -/
def getGoogleAuthUrl (env : Env) (clientId scope : String)
    (state codeChallenge codeChallengeMethod : Option String) : GoogleAuthRequest :=
  { client_id := clientId
    redirect_uri := googleRedirectUri env
    response_type := "code"
    scope := scope
    state := if truthy state then state else none
    code_challenge :=
      if truthy codeChallenge && truthy codeChallengeMethod then codeChallenge else none
    code_challenge_method :=
      if truthy codeChallenge && truthy codeChallengeMethod then codeChallengeMethod
      else none }

/-- The terminal outcome of the authorization endpoint. -/
inductive AuthorizeOutcome where
  | errorRedirect (redirectUri : String) (error description : String) (state : Option String)
  | errorJson (error description : String)
  | redirectToGoogle (g : GoogleAuthRequest)
deriving DecidableEq

/-- Embedding of `createOAuth21ErrorRedirect` (src/unnamed/part_008, lines
89-115): a falsy redirect URI degrades to the JSON error body, as does a
redirect URI on which the platform `URL` constructor (modelled by `urlOk`)
throws. -/
def createOAuth21ErrorRedirect (urlOk : String → Bool) (redirectUri : Option String)
    (error description : String) (state : Option String) : AuthorizeOutcome :=
  if !truthy redirectUri then .errorJson error description
  else if urlOk (jsOr redirectUri "") then
    .errorRedirect (jsOr redirectUri "") error description
      (if truthy state then state else none)
  else .errorJson "invalid_request" "Invalid redirect_uri"

/-- Embedding of the authorization `GET` handler (lines 238-320 of the
second handler in src/app/api/auth/callback/google/route.ts):
parameter validation, client check, then the allow-list check applied to
`normalizeRedirectUri(redirect_uri)`, and finally the upstream redirect.
The call `getGoogleAuthUrl(googleClientId, authParams.scope || undefined,
...)` with the callee default `"openid profile email"` is the `jsOr`
composition below. -/
def authorizeGET (env : Env) (urlOk : String → Bool)
    (p : OAuth21AuthParams) : AuthorizeOutcome :=
  let v := validateAuthParams p
  if !v.isValid then
    createOAuth21ErrorRedirect urlOk (some (jsOr p.redirect_uri ""))
      (jsOr v.error "") (jsOr v.errorDescription "") p.state
  else if !truthy env.GOOGLE_CLIENT_ID || p.client_id ≠ env.GOOGLE_CLIENT_ID then
    createOAuth21ErrorRedirect urlOk (some (jsOr p.redirect_uri ""))
      "invalid_client" "Invalid client identifier" p.state
  else
    let normalizedRedirectUri := normalizeRedirectUri (jsOr p.redirect_uri "")
    if !isAllowedRedirectUri env normalizedRedirectUri then
      .errorJson "invalid_request" "Invalid redirect_uri"
    else
      .redirectToGoogle
        (getGoogleAuthUrl env (jsOr env.GOOGLE_CLIENT_ID "")
          (jsOr p.scope "openid profile email")
          p.state p.code_challenge p.code_challenge_method)

/-! ## Logout endpoint (`src/app/api/auth/logout/route.ts`) -/

/-- Body of a logout response. -/
inductive LogoutBody where
  | successJson
  | redirect (url : String) (logoutFlagAdded : Bool)
deriving DecidableEq

/-- A logout response: its body together with the cookies whose deletion the
response instructs (`response.cookies.delete(...)` calls performed on the
response object that is actually returned). -/
structure LogoutResponse where
  body : LogoutBody
  deletedCookies : List String
deriving DecidableEq

/-- Embedding of the logout `POST` handler (src/app/api/auth/logout/route.ts,
lines 7-40), non-throwing path: success JSON with `oauth_session`,
`oauth_state` and `oauth_nonce` deleted on the returned response. -/
def logoutPOST : LogoutResponse :=
  ⟨.successJson, ["oauth_session", "oauth_state", "oauth_nonce"]⟩

/-- Embedding of the logout `GET` handler (src/app/api/auth/logout/route.ts,
lines 46-67), non-throwing path.  `hasLogoutParam` models
the check whether `finalUrl` already carries a `logout` query parameter.  The handler deletes the session
cookie on a first redirect response (`_cleared`), then builds `finalUrl` and
returns a fresh `NextResponse.redirect(finalUrl)` — the returned response
carries no cookie deletion. -/
def logoutGET (redirectParam : Option String) (hasLogoutParam : Bool) : LogoutResponse :=
  let redirectUrl := jsOr redirectParam "/auth/login"
  let _cleared : LogoutResponse := ⟨.redirect redirectUrl false, ["oauth_session"]⟩
  ⟨.redirect redirectUrl (!hasLogoutParam), []⟩

/-! ## Supporting lemmas -/

theorem isPrefixOf_append_self (l t : List Char) : l.isPrefixOf (l ++ t) = true := by
  induction l with
  | nil => simp [List.isPrefixOf]
  | cons a as ih => simp [List.isPrefixOf, ih]

theorem isPrefixOf_nil_eq_false (pat : List Char) (hp : pat ≠ []) :
    pat.isPrefixOf ([] : List Char) = false := by
  cases pat with
  | nil => exact absurd rfl hp
  | cons a as => rfl

theorem replaceFirstList_self (pat rep X : List Char) (hp : pat ≠ []) :
    replaceFirstList pat rep (pat ++ X) = rep ++ X := by
  cases pat with
  | nil => exact absurd rfl hp
  | cons c p =>
    show replaceFirstList (c :: p) rep (c :: (p ++ X)) = rep ++ X
    rw [replaceFirstList]
    have h1 : (c :: p).isPrefixOf (c :: (p ++ X)) = true := isPrefixOf_append_self (c :: p) X
    rw [h1]
    simp [List.drop_left]

theorem replaceFirstList_no_occurrence (pat rep l : List Char) (h : ¬ pat <:+: l) :
    replaceFirstList pat rep l = l := by
  induction l with
  | nil => rfl
  | cons a as ih =>
    rw [replaceFirstList]
    have h1 : pat.isPrefixOf (a :: as) = false := by
      rw [← Bool.not_eq_true, List.isPrefixOf_iff_prefix]
      intro hpre
      exact h hpre.isInfix
    rw [h1]
    simp only [Bool.false_eq_true, if_false]
    rw [ih (fun hi => h ( List.infix_cons hi))]

theorem replaceFirstList_append_left (pat rep A B : List Char) (hp : pat ≠ [])
    (h : ∀ a ∈ A, a ∉ pat) :
    replaceFirstList pat rep (A ++ B) = A ++ replaceFirstList pat rep B := by
  induction A with
  | nil => rfl
  | cons a A ih =>
    show replaceFirstList pat rep (a :: (A ++ B)) = a :: (A ++ replaceFirstList pat rep B)
    rw [replaceFirstList]
    have h1 : pat.isPrefixOf (a :: (A ++ B)) = false := by
      rw [← Bool.not_eq_true, List.isPrefixOf_iff_prefix]
      intro hpre
      cases pat with
      | nil => exact hp rfl
      | cons c p =>
        have hc : c = a := by
          have := List.prefix_iff_eq_take.1 hpre
          simpa using congrArg (List.head? ·) this
        exact h a (List.mem_cons_self a A)
          (by rw [← hc]; exact List.mem_cons_self c p)
    rw [h1]
    simp only [Bool.false_eq_true, if_false]
    rw [ih (fun x hx => h x (List.mem_cons_of_mem a hx))]

theorem isPrefixOf_append_singleton (pat l : List Char) (c : Char) (hc : c ∉ pat) :
    pat.isPrefixOf (l ++ [c]) = pat.isPrefixOf l := by
  rcases hb : pat.isPrefixOf l with _ | _
  · rw [← Bool.not_eq_true, List.isPrefixOf_iff_prefix]
    intro hpre
    rw [← Bool.not_eq_true, List.isPrefixOf_iff_prefix] at hb
    rcases Nat.lt_or_ge l.length pat.length with hlen | hlen
    · have hlen2 : pat.length ≤ l.length + 1 := by
        have := hpre.length_le
        simpa using this
      have hpl : pat.length = l.length + 1 := Nat.le_antisymm hlen2 hlen
      have : pat = l ++ [c] := by
        have ht := List.prefix_iff_eq_take.1 hpre
        rw [ht, hpl, List.take_of_length_le (by simp)]
      exact hc (this ▸ (by simp : c ∈ l ++ [c]))
    · apply hb
      rw [ List.prefix_iff_eq_take] at hpre ⊢
      rwa [List.take_append_of_le_length hlen] at hpre
  · rw [ List.isPrefixOf_iff_prefix] at hb ⊢
    exact hb.trans ( List.prefix_append l [c])

theorem replaceFirstList_append_singleton (pat rep l : List Char) (c : Char)
    (hc : c ∉ pat) (hp : pat ≠ []) :
    replaceFirstList pat rep (l ++ [c]) = replaceFirstList pat rep l ++ [c] := by
  induction l with
  | nil =>
    have h1 : pat.isPrefixOf [c] = false := by
      have := isPrefixOf_append_singleton pat [] c hc
      simpa [isPrefixOf_nil_eq_false pat hp] using this
    show replaceFirstList pat rep (c :: []) = replaceFirstList pat rep [] ++ [c]
    simp [replaceFirstList, h1]
  | cons a l ih =>
    show replaceFirstList pat rep ((a :: l) ++ [c]) = replaceFirstList pat rep (a :: l) ++ [c]
    have hshape : (a :: l) ++ [c] = a :: (l ++ [c]) := rfl
    rw [hshape, replaceFirstList, replaceFirstList]
    have hguard : pat.isPrefixOf (a :: (l ++ [c])) = pat.isPrefixOf (a :: l) := by
      have := isPrefixOf_append_singleton pat (a :: l) c hc
      simpa using this
    rw [hguard]
    rcases hb : pat.isPrefixOf (a :: l) with _ | _
    · simp only [Bool.false_eq_true, if_false]
      rw [ih]
      simp
    · simp only [if_true]
      rw [ List.isPrefixOf_iff_prefix] at hb
      have hlen : pat.length ≤ (a :: l).length := hb.length_le
      have hdrop : (a :: (l ++ [c])).drop pat.length = (a :: l).drop pat.length ++ [c] := by
        have : (a :: (l ++ [c])) = (a :: l) ++ [c] := rfl
        rw [this, List.drop_append_of_le_length hlen]
      rw [hdrop, List.append_assoc]

theorem replaceFirstList_ne_nil (pat rep l : List Char) (hl : l ≠ []) (hrep : rep ≠ []) :
    replaceFirstList pat rep l ≠ [] := by
  cases l with
  | nil => exact absurd rfl hl
  | cons a as =>
    rw [replaceFirstList]
    rcases pat.isPrefixOf (a :: as) with _ | _
    · simp
    · simp [hrep]

theorem getLast?_cons_of_ne_nil (a : Char) (l : List Char) (h : l ≠ []) :
    (a :: l).getLast? = l.getLast? := by
  cases l with
  | nil => exact absurd rfl h
  | cons b bs => exact List.getLast?_cons_cons ..

theorem getLast?_replaceFirstList (pat rep l : List Char) (c : Char)
    (hrepne : rep ≠ []) (hrep : rep.getLast? ≠ some c) (hl : l.getLast? ≠ some c) :
    (replaceFirstList pat rep l).getLast? ≠ some c := by
  induction l with
  | nil => simp [replaceFirstList]
  | cons a as ih =>
    rw [replaceFirstList]
    rcases hb : pat.isPrefixOf (a :: as) with _ | _
    · simp only [Bool.false_eq_true, if_false]
      cases as with
      | nil => simpa [replaceFirstList] using hl
      | cons b bs =>
        have hasne : (b :: bs : List Char) ≠ [] := by simp
        have hrecne : replaceFirstList pat rep (b :: bs) ≠ [] :=
          replaceFirstList_ne_nil pat rep (b :: bs) hasne hrepne
        rw [getLast?_cons_of_ne_nil a _ hrecne]
        exact ih (by rwa [getLast?_cons_of_ne_nil a (b :: bs) hasne] at hl)
    · simp only [if_true]
      cases hd : (a :: as).drop pat.length with
      | nil => simpa using hrep
      | cons d ds =>
        have hdne : (d :: ds : List Char) ≠ [] := by simp
        rw [List.getLast?_append_of_ne_nil rep hdne]
        have hsplit : (a :: as).take pat.length ++ (a :: as).drop pat.length = a :: as :=
          List.take_append_drop ..
        have hgl : (d :: ds).getLast? = (a :: as).getLast? := by
          conv_rhs => rw [← hsplit, hd]
          rw [List.getLast?_append_of_ne_nil _ hdne]
        rw [hgl]
        exact hl

/-! ## Claim theorems -/

/-- C5: every session credential that fails to decode (any garbage string,
whether invalid base64 or base64 of non-JSON) makes session validation
return a not-authenticated result; the handler is a total function, so no
exception reaches the caller. -/
theorem c5_malformed_session_not_authenticated (raw : String) (now : Nat) :
    sessionStatus (some (.malformed raw)) now =
      ⟨false, none, "Invalid session format", true⟩ := rfl

/-- C7: token-parameter validation is fail-fast with the first violation
winning: a wrong `grant_type` yields `unsupported_grant_type` regardless of
the later fields; with `grant_type` right, a falsy `code` yields
`invalid_request` regardless of `redirect_uri`; with both right, a falsy
`redirect_uri` yields `invalid_request`; with all three right, validation
succeeds. -/
theorem c7_validateTokenParams_fail_fast (p : TokenExchangeParams) :
    (p.grant_type ≠ some "authorization_code" →
      validateTokenParams p =
        ⟨false, some "unsupported_grant_type",
          some "Only authorization_code grant type is supported"⟩) ∧
    (p.grant_type = some "authorization_code" → truthy p.code = false →
      validateTokenParams p =
        ⟨false, some "invalid_request", some "Missing authorization code"⟩) ∧
    (p.grant_type = some "authorization_code" → truthy p.code = true →
      truthy p.redirect_uri = false →
      validateTokenParams p =
        ⟨false, some "invalid_request", some "Missing redirect_uri"⟩) ∧
    (p.grant_type = some "authorization_code" → truthy p.code = true →
      truthy p.redirect_uri = true →
      validateTokenParams p = ⟨true, none, none⟩) := by
  refine ⟨?_, ?_, ?_, ?_⟩ <;> intros <;> simp_all [validateTokenParams]

/-- C7 witness: a request that is wrong on two counts at once — bad
`grant_type` and missing `code` — reports only the first violation,
`unsupported_grant_type`. -/
theorem c7_validateTokenParams_fail_fast_witness :
    validateTokenParams ⟨some "password", none, none, none, none, none⟩ =
      ⟨false, some "unsupported_grant_type",
        some "Only authorization_code grant type is supported"⟩ :=
  (c7_validateTokenParams_fail_fast _).1 (by decide)

/-- C9: in every token response built from upstream tokens, `access_token`
is the upstream `id_token` when present and non-empty, else the upstream
`access_token` when present and non-empty, else `""`; `token_type` is always
`"Bearer"`; `expires_in` is the upstream value when present and non-zero,
else 3600. -/
theorem c9_buildTokenResponse_fields (g : GoogleTokens) (scope : Option String)
    (fb : String) :
    (buildTokenResponse g scope fb).token_type = "Bearer" ∧
    (∀ t, g.id_token = some t → t ≠ "" →
      (buildTokenResponse g scope fb).access_token = t) ∧
    ((g.id_token = none ∨ g.id_token = some "") →
      ∀ t, g.access_token = some t → t ≠ "" →
        (buildTokenResponse g scope fb).access_token = t) ∧
    ((g.id_token = none ∨ g.id_token = some "") →
      (g.access_token = none ∨ g.access_token = some "") →
      (buildTokenResponse g scope fb).access_token = "") ∧
    (∀ n, g.expires_in = some n → n ≠ 0 →
      (buildTokenResponse g scope fb).expires_in = n) ∧
    ((g.expires_in = none ∨ g.expires_in = some 0) →
      (buildTokenResponse g scope fb).expires_in = 3600) := by
  refine ⟨rfl, ?_, ?_, ?_, ?_, ?_⟩
  · intro t ht hne
    have : t.isEmpty = false := by
      rw [← Bool.not_eq_true, String.isEmpty_iff]; exact hne
    simp [buildTokenResponse, jsOr, ht, this]
  · rintro (h | h) t ht hne <;>
    · have hte : t.isEmpty = false := by
        rw [← Bool.not_eq_true, String.isEmpty_iff]; exact hne
      have hemp : "".isEmpty = true := rfl
      simp [buildTokenResponse, jsOr, h, ht, hte, hemp]
  · have hemp : "".isEmpty = true := rfl
    rintro (h | h) (h2 | h2) <;> simp [buildTokenResponse, jsOr, h, h2, hemp]
  · intro n hn hne
    simp [buildTokenResponse, jsOrNat, hn, hne]
  · rintro (h | h) <;> simp [buildTokenResponse, jsOrNat, h]

/-- C9 witness: with an upstream `id_token` present and non-empty, the
handed-out bearer `access_token` is exactly that ID token. -/
theorem c9_buildTokenResponse_fields_witness :
    (buildTokenResponse ⟨some "at", some "idt", none, some 120, none, none⟩
        (some "openid") "openid profile email").access_token = "idt" :=
  (c9_buildTokenResponse_fields ⟨some "at", some "idt", none, some 120, none, none⟩
    (some "openid") "openid profile email").2.1 "idt" rfl (by decide)

/-- C3 counterexample: the claim says validation at any time
`t ≥ issuedAt + ttl` returns not-valid, but the expiry guard in the code is the
strict `exp < now`, so at exactly `t = issuedAt + ttl` (here `issuedAt = 0`,
`ttl = 86400`, `t = 86400`) the session is still reported valid. -/
theorem c3_boundary_counterexample :
    (sessionStatus (some (issueSessionToken "alice" "alice@example.com" "Alice" 0))
      86400).authenticated = true := by decide

/-- C3 (amended): validating the credential produced by issuing a session at
`issuedAt` (the ttl in the code is the fixed 86400 seconds) returns
authenticated with the subject, email and name claims unchanged at every
time `t ≤ issuedAt + 86400`, and returns not-authenticated at every time
`t > issuedAt + 86400`. -/
theorem c3_session_round_trip (sub email name : String) (issuedAt t : Nat) :
    (t ≤ issuedAt + 86400 →
      sessionStatus (some (issueSessionToken sub email name issuedAt)) t =
        ⟨true, some ⟨sub, email, name, issuedAt + 86400⟩, "Session valid", false⟩) ∧
    (issuedAt + 86400 < t →
      sessionStatus (some (issueSessionToken sub email name issuedAt)) t =
        ⟨false, none, "Session expired", false⟩) := by
  constructor
  · intro h
    have hlt : ¬ (issuedAt + 60 * 60 * 24 < t) := by omega
    simp [sessionStatus, issueSessionToken, hlt]
  · intro h
    have hne : issuedAt + 60 * 60 * 24 ≠ 0 := by omega
    have hlt : issuedAt + 60 * 60 * 24 < t := by omega
    simp [sessionStatus, issueSessionToken, hne, hlt]

/-- C3 witness: a concrete round-trip — a session issued at time 0 validates
with its claims intact at time 3600, and is rejected at time 100000. -/
theorem c3_session_round_trip_witness :
    (sessionStatus (some (issueSessionToken "s" "e@x" "N" 0)) 3600 =
      ⟨true, some ⟨"s", "e@x", "N", 86400⟩, "Session valid", false⟩) ∧
    (sessionStatus (some (issueSessionToken "s" "e@x" "N" 0)) 100000 =
      ⟨false, none, "Session expired", false⟩) :=
  ⟨(c3_session_round_trip "s" "e@x" "N" 0 3600).1 (by decide),
   (c3_session_round_trip "s" "e@x" "N" 0 100000).2 (by decide)⟩

/-- C8: behaviour of the logout handlers at the failing input.  The `POST`
handler deletes `oauth_session` on the response it returns, but the `GET`
handler (non-throwing path, any redirect parameter — here absent) returns a
fresh redirect response carrying no cookie deletion at all: the deletion was
performed on a response object that is then discarded. -/
theorem c8_logout_get_loses_cookie_deletion :
    "oauth_session" ∈ logoutPOST.deletedCookies ∧
    (logoutGET none false).deletedCookies = [] ∧
    (logoutGET none false).body = .redirect "/auth/login" true := by
  refine ⟨?_, rfl, rfl⟩
  simp [logoutPOST]

/-- C1 counterexample: a request carrying a bearer header whose token fails
upstream verification (`verify` rejects everything) together with a live
session cookie does not get the uniform unauthorized error: the
authenticator falls through to the session cookie and authenticates, against
the claim that the cookie is consulted only when no Authorization header is
present at all. -/
theorem c1_bearer_failure_counterexample :
    authenticateMCPRequest (some "Bearer expired-token") (fun _ => none)
      (some (.encoded ⟨"alice", "alice@example.com", "Alice", 0, 1000⟩)) 500 =
      ⟨true, some (.session ⟨"alice", "alice@example.com", "Alice", 0, 1000⟩),
        none, none, none, none⟩ := by decide

/-- C1 (amended): a bearer header whose stripped token is empty is a hard
failure with the uniform unauthorized error, never consulting the session
cookie; a bearer header whose non-empty token fails upstream verification
falls through to session-cookie validation; and an absent Authorization
header likewise goes to the session cookie. -/
theorem c1_auth_fallthrough_policy (verify : String → Option VerifiedUser)
    (cookie : Option SessionCredential) (now : Nat) :
    (authenticateMCPRequest (some "Bearer ") verify cookie now =
      ⟨false, none, some "Invalid authorization header format", some (-32603),
        some "Unauthorized - Invalid token format", some 401⟩) ∧
    (∀ token : String, token ≠ "" → verify token = none →
      authenticateMCPRequest (some ("Bearer " ++ token)) verify cookie now =
        trySessionCookie cookie now) ∧
    (authenticateMCPRequest none verify cookie now = trySessionCookie cookie now) := by
  refine ⟨rfl, ?_, rfl⟩
  intro token hne hver
  have hne' : ("Bearer " ++ token) ≠ "" := by
    intro h
    have h2 := congrArg String.data h
    rw [String.data_append] at h2
    simp at h2
  have hie : ("Bearer " ++ token).isEmpty = false := by
    rw [← Bool.not_eq_true, String.isEmpty_iff]; exact hne'
  have ht : truthy (some ("Bearer " ++ token)) = true := by simp [truthy, hie]
  have hte : token.isEmpty = false := by
    rw [← Bool.not_eq_true, String.isEmpty_iff]; exact hne
  have hstrip : stripBearer ("Bearer " ++ token) = token := by
    unfold stripBearer
    rw [String.data_append]
    rw [isPrefixOf_append_self "Bearer ".data token.data]
    simp only [if_true]
    have h7 : ("Bearer ".data).length = 7 := rfl
    rw [← h7, List.drop_left]
  simp [authenticateMCPRequest, ht, jsOr, hie, hstrip, hte, hver]

/-- C1 witness: with a rejecting verifier, a non-empty failing bearer token
and no cookie ends in the session-cookie path (missing-credential error). -/
theorem c1_auth_fallthrough_policy_witness :
    authenticateMCPRequest (some ("Bearer " ++ "tok")) (fun _ => none) none 0 =
      trySessionCookie none 0 :=
  (c1_auth_fallthrough_policy (fun _ => none) none 0).2.1 "tok" (by decide) rfl

/-- C2: any JSON-RPC method outside `{initialize, tools/list}` (known or
unknown to the dispatcher), posted with neither a bearer header nor a
session cookie, gets the unauthorized JSON-RPC envelope with code `-32603`
and HTTP 401, and `handleMCPTool` is never invoked. -/
theorem c2_protected_method_fails_closed (body : MCPRequestBody)
    (verify : String → Option VerifiedUser) (now : Nat)
    (emailValid : String → Bool) (acts : ActionsOracle)
    (h : body.method ∉ (["initialize", "tools/list"] : List String)) :
    mcpPOST none verify none now emailValid acts body =
      ⟨401, none,
        .rpcError (-32603)
          "Unauthorized - Missing authorization header or session cookie",
        false⟩ := by
  have hreq : requiresAuthentication body.method = true := by
    simp [requiresAuthentication, h]
  have hauth : authenticateMCPRequest none verify none now =
      ⟨false, none, some "Missing authorization header or session cookie",
        some (-32603),
        some "Unauthorized - Missing authorization header or session cookie",
        some 401⟩ := rfl
  simp [mcpPOST, hreq, hauth]

/-- A trivial CRUD-action oracle used to instantiate witnesses. -/
def stubActions : ActionsOracle :=
  ⟨fun _ => .ok [], fun d => .ok ⟨"1", d.name, d.email, d.phoneNumber⟩,
   fun i _ => .ok ⟨i, "", "", ""⟩, fun _ => .ok (), fun _ => .ok none⟩

/-- C2 witness: a credential-less `tools/call` request is rejected with the
401 / `-32603` envelope and no tool execution. -/
theorem c2_protected_method_fails_closed_witness :
    mcpPOST none (fun _ => none) none 0 (fun _ => false) stubActions
      ⟨"2.0", .num 1, "tools/call", none⟩ =
      ⟨401, none,
        .rpcError (-32603)
          "Unauthorized - Missing authorization header or session cookie",
        false⟩ :=
  c2_protected_method_fails_closed _ _ _ _ _ (by decide)

/-- C10: the tool dispatcher is total over its error channel.  A tool name
outside the five known tools yields the `success:false` unknown-tool
payload for every argument object and user context; a schema-validation
failure on a known tool yields the `success:false` invalid-input payload;
a successful result can only arise for a known tool whose schema parse
succeeded; and a thrown downstream CRUD error on any of the five tools is
caught into a `success:false` payload carrying the error message.  The
embedding is a total Lean function, mirroring the top-level try/catch that
prevents any exception from propagating, and its result is what the source
serializes with `JSON.stringify`. -/
theorem c10_handleMCPTool_error_channel (emailValid : String → Bool)
    (acts : ActionsOracle) (toolName : String) (args : ToolArgs)
    (user : Option MCPUserContext) :
    (toolName ∉ validTools →
      handleMCPTool emailValid acts toolName args user =
        ⟨false, "Unknown tool: " ++ toolName, .noData⟩) ∧
    (toolName ∈ validTools → toolSchemaOk emailValid toolName args = false →
      handleMCPTool emailValid acts toolName args user =
        ⟨false, "Invalid input parameters", .noData⟩) ∧
    ((handleMCPTool emailValid acts toolName args user).success = true →
      toolName ∈ validTools ∧ toolSchemaOk emailValid toolName args = true) ∧
    (∀ q e, toolName = "search_users" → parseSearchUsers args = some q →
      acts.searchUsers q = .error e →
      handleMCPTool emailValid acts toolName args user = ⟨false, e, .noData⟩) ∧
    (∀ d e, toolName = "add_user" → parseAddUser emailValid args = some d →
      acts.addUser d = .error e →
      handleMCPTool emailValid acts toolName args user = ⟨false, e, .noData⟩) ∧
    (∀ i upd e, toolName = "update_user" →
      parseUpdateUser emailValid args = some (i, upd) →
      ¬ (upd.name = none ∧ upd.email = none ∧ upd.phoneNumber = none) →
      acts.updateUser i upd = .error e →
      handleMCPTool emailValid acts toolName args user = ⟨false, e, .noData⟩) ∧
    (∀ i e, toolName = "delete_user" → asStr args.id = some i →
      acts.deleteUser i = .error e →
      handleMCPTool emailValid acts toolName args user = ⟨false, e, .noData⟩) ∧
    (∀ i e, toolName = "get_user_by_id" → asStr args.id = some i →
      acts.getUserById i = .error e →
      handleMCPTool emailValid acts toolName args user = ⟨false, e, .noData⟩) := by
  refine ⟨?_, ?_, ?_, ?_, ?_, ?_, ?_, ?_⟩
  · intro h
    have h1 : toolName ≠ "search_users" := fun e => h (by rw [e]; decide)
    have h2 : toolName ≠ "add_user" := fun e => h (by rw [e]; decide)
    have h3 : toolName ≠ "update_user" := fun e => h (by rw [e]; decide)
    have h4 : toolName ≠ "delete_user" := fun e => h (by rw [e]; decide)
    have h5 : toolName ≠ "get_user_by_id" := fun e => h (by rw [e]; decide)
    simp [handleMCPTool, h1, h2, h3, h4, h5]
  · intro hmem hbad
    have hcases : toolName = "search_users" ∨ toolName = "add_user" ∨
        toolName = "update_user" ∨ toolName = "delete_user" ∨
        toolName = "get_user_by_id" := by simpa [validTools] using hmem
    rcases hcases with h | h | h | h | h <;> subst h <;> rw [toolSchemaOk] at hbad
    · cases hp : parseSearchUsers args with
      | some q => rw [hp] at hbad; simp at hbad
      | none => simp [handleMCPTool, hp]
    · cases hp : parseAddUser emailValid args with
      | some d => rw [hp] at hbad; simp at hbad
      | none => simp [handleMCPTool, hp]
    · cases hp : parseUpdateUser emailValid args with
      | some p => rw [hp] at hbad; simp at hbad
      | none => simp [handleMCPTool, hp]
    · cases hp : asStr args.id with
      | some i => rw [hp] at hbad; simp at hbad
      | none => simp [handleMCPTool, hp]
    · cases hp : asStr args.id with
      | some i => rw [hp] at hbad; simp at hbad
      | none => simp [handleMCPTool, hp]
  · intro hs
    by_cases hmem : toolName ∈ validTools
    · refine ⟨hmem, ?_⟩
      have hcases : toolName = "search_users" ∨ toolName = "add_user" ∨
          toolName = "update_user" ∨ toolName = "delete_user" ∨
          toolName = "get_user_by_id" := by simpa [validTools] using hmem
      rcases hcases with h | h | h | h | h <;> subst h <;> rw [toolSchemaOk]
      · cases hp : parseSearchUsers args with
        | none => simp [handleMCPTool, hp] at hs
        | some q => simp [hp]
      · cases hp : parseAddUser emailValid args with
        | none => simp [handleMCPTool, hp] at hs
        | some d => simp [hp]
      · cases hp : parseUpdateUser emailValid args with
        | none => simp [handleMCPTool, hp] at hs
        | some p => simp [hp]
      · cases hp : asStr args.id with
        | none => simp [handleMCPTool, hp] at hs
        | some i => simp [hp]
      · cases hp : asStr args.id with
        | none => simp [handleMCPTool, hp] at hs
        | some i => simp [hp]
    · exfalso
      have h1 : toolName ≠ "search_users" := fun e => hmem (by rw [e]; decide)
      have h2 : toolName ≠ "add_user" := fun e => hmem (by rw [e]; decide)
      have h3 : toolName ≠ "update_user" := fun e => hmem (by rw [e]; decide)
      have h4 : toolName ≠ "delete_user" := fun e => hmem (by rw [e]; decide)
      have h5 : toolName ≠ "get_user_by_id" := fun e => hmem (by rw [e]; decide)
      simp [handleMCPTool, h1, h2, h3, h4, h5] at hs
  · intro q e hname hp hact
    subst hname
    simp [handleMCPTool, hp, hact]
  · intro d e hname hp hact
    subst hname
    simp [handleMCPTool, hp, hact]
  · intro i upd e hname hp hfields hact
    subst hname
    simp [handleMCPTool, hp, hfields, hact]
  · intro i e hname hp hact
    subst hname
    simp [handleMCPTool, hp, hact]
  · intro i e hname hp hact
    subst hname
    simp [handleMCPTool, hp, hact]

/-- C10 witness: the unknown-tool payload at a concrete unknown name, and a
caught downstream error at a concrete `search_users` call against an
always-throwing oracle. -/
theorem c10_handleMCPTool_error_channel_witness :
    handleMCPTool (fun _ => true) stubActions "drop_table" emptyArgs none =
      ⟨false, "Unknown tool: " ++ "drop_table", .noData⟩ ∧
    handleMCPTool (fun _ => true)
        ⟨fun _ => .error "db down", fun _ => .error "db down",
         fun _ _ => .error "db down", fun _ => .error "db down",
         fun _ => .error "db down"⟩
        "search_users" ⟨some (.str ""), none, none, none, none⟩ none =
      ⟨false, "db down", .noData⟩ :=
  ⟨(c10_handleMCPTool_error_channel (fun _ => true) stubActions "drop_table"
      emptyArgs none).1 (by decide),
   (c10_handleMCPTool_error_channel (fun _ => true)
      ⟨fun _ => .error "db down", fun _ => .error "db down",
       fun _ _ => .error "db down", fun _ => .error "db down",
       fun _ => .error "db down"⟩
      "search_users" ⟨some (.str ""), none, none, none, none⟩ none).2.2.2.1
    "" "db down" rfl rfl rfl⟩

/-- C4 counterexample: the allow-list comparison of `isAllowedRedirectUri`
does not case-fold, so a URI differing from an allowed entry only in letter
case changes the result from accepted to rejected — against the claim that
the result is unchanged under letter case. -/
theorem c4_case_fold_counterexample :
    isAllowedRedirectUri emptyEnv "http://localhost:3000/api/auth/callback/google" = true ∧
    isAllowedRedirectUri emptyEnv "http://LOCALHOST:3000/api/auth/callback/google" = false := by
  decide

/-- C4 (amended): the allow-list check is decided by normalized comparison,
where the normalization strips one trailing slash and replaces the first
occurrence of `127.0.0.1` by `localhost` but does not case-fold:
`isAllowedRedirectUri` returns true exactly when the normalized URI equals
the normalized form of some allow-list entry, and its result is unchanged
when the input differs only in a trailing slash or only in the loopback
hostname `127.0.0.1` versus `localhost` (but not under letter case). -/
theorem c4_allowlist_normalization (env : Env) :
    (∀ uri, isAllowedRedirectUri env uri = true ↔
      ∃ x ∈ allowedRedirects env, allowListNorm x = allowListNorm uri) ∧
    (∀ uri : String, uri.data.getLast? ≠ some '/' →
      isAllowedRedirectUri env (uri ++ "/") = isAllowedRedirectUri env uri) ∧
    (∀ sfx : String, ¬ ("127.0.0.1".data <:+: sfx.data) →
      isAllowedRedirectUri env ("http://127.0.0.1" ++ sfx) =
        isAllowedRedirectUri env ("http://localhost" ++ sfx)) := by
  refine ⟨?_, ?_, ?_⟩
  · intro uri
    simp [isAllowedRedirectUri, List.mem_map]
  · intro uri h
    have hn : allowListNorm (uri ++ "/") = allowListNorm uri := by
      unfold allowListNorm replaceFirst stripTrailingSlash
      have hdata : (uri ++ "/").data = uri.data ++ ['/'] := by
        rw [String.data_append]
      rw [hdata]
      rw [replaceFirstList_append_singleton _ _ _ _ (by decide) (by decide)]
      have hXlast :
          (replaceFirstList "127.0.0.1".data "localhost".data uri.data).getLast? ≠
            some '/' :=
        getLast?_replaceFirstList _ _ _ _ (by decide) (by decide) h
      have h1 : stripSlashList
          (replaceFirstList "127.0.0.1".data "localhost".data uri.data ++ ['/']) =
          replaceFirstList "127.0.0.1".data "localhost".data uri.data := by
        simp [stripSlashList]
      have h2 : stripSlashList
          (replaceFirstList "127.0.0.1".data "localhost".data uri.data) =
          replaceFirstList "127.0.0.1".data "localhost".data uri.data := by
        simp [stripSlashList, hXlast]
      rw [h1, h2]
    rw [isAllowedRedirectUri, isAllowedRedirectUri, hn]
  · intro sfx h
    have hn : allowListNorm ("http://127.0.0.1" ++ sfx) =
        allowListNorm ("http://localhost" ++ sfx) := by
      unfold allowListNorm replaceFirst stripTrailingSlash
      have hd1 : ("http://127.0.0.1" ++ sfx).data =
          "http://".data ++ ("127.0.0.1".data ++ sfx.data) := by
        rw [String.data_append,
          show ("http://127.0.0.1").data = "http://".data ++ "127.0.0.1".data from by decide,
          List.append_assoc]
      have hd2 : ("http://localhost" ++ sfx).data =
          "http://localhost".data ++ sfx.data := String.data_append ..
      rw [hd1, hd2]
      rw [replaceFirstList_append_left _ _ _ _ (by decide) (by decide)]
      rw [replaceFirstList_self _ _ _ (by decide)]
      rw [replaceFirstList_append_left _ _ _ _ (by decide) (by decide)]
      rw [replaceFirstList_no_occurrence _ _ _ h]
      rw [show ("http://localhost").data = "http://".data ++ "localhost".data from by decide,
        List.append_assoc]
    rw [isAllowedRedirectUri, isAllowedRedirectUri, hn]

/-- C4 witness: trailing-slash invariance at a concrete URI and loopback
alias invariance at the concrete callback path. -/
theorem c4_allowlist_normalization_witness :
    isAllowedRedirectUri emptyEnv ("http://x" ++ "/") =
      isAllowedRedirectUri emptyEnv "http://x" ∧
    isAllowedRedirectUri emptyEnv
        ("http://127.0.0.1" ++ ":3000/api/auth/callback/google") =
      isAllowedRedirectUri emptyEnv
        ("http://localhost" ++ ":3000/api/auth/callback/google") :=
  ⟨(c4_allowlist_normalization emptyEnv).2.1 "http://x" (by decide),
   (c4_allowlist_normalization emptyEnv).2.2 ":3000/api/auth/callback/google" (by decide)⟩

/-- C6: with all other parameters valid (and, at the token endpoint, client
authentication succeeding), a redirect URI that does not normalize to any
allow-list entry makes the authorization endpoint answer the JSON error
`invalid_request` (no redirect to the upstream provider is emitted) and
makes the token endpoint answer `invalid_request` without invoking the
upstream code exchange. -/
theorem c6_disallowed_redirect_rejected :
    (∀ (env : Env) (urlOk : String → Bool) (p : OAuth21AuthParams),
      (validateAuthParams p).isValid = true →
      truthy env.GOOGLE_CLIENT_ID = true →
      p.client_id = env.GOOGLE_CLIENT_ID →
      isAllowedRedirectUri env (normalizeRedirectUri (jsOr p.redirect_uri "")) = false →
      authorizeGET env urlOk p = .errorJson "invalid_request" "Invalid redirect_uri") ∧
    (∀ (env : Env) (params : TokenExchangeParams) (basic : Option BasicAuthHeader)
      (exchange : String → String → ExchangeResult) (verify : String → VerifyOutcome),
      (validateTokenParams params).isValid = true →
      truthy env.GOOGLE_CLIENT_ID = true →
      truthy env.GOOGLE_CLIENT_SECRET = true →
      params.client_id = env.GOOGLE_CLIENT_ID →
      resolveClientSecret params basic (jsOr env.GOOGLE_CLIENT_ID "") =
        env.GOOGLE_CLIENT_SECRET →
      isAllowedRedirectUri env (jsOr params.redirect_uri "") = false →
      tokenPOST env params basic exchange verify =
        ⟨.errorResponse "invalid_request" "Invalid redirect_uri", false⟩) := by
  constructor
  · intro env urlOk p hv hc hid hallow
    simp [authorizeGET, hv, hc, hid, hallow]
  · intro env params basic exchange verify hv hc hcs hid hs hallow
    simp [tokenPOST, hv, hc, hcs, hid, hs, hallow]

/-- An environment with only the Google client credentials configured. -/
def envConfigured : Env :=
  ⟨none, none, none, none, none, none, none, none, some "cid", some "sec"⟩

/-- A syntactically valid authorization request naming a redirect URI that
is not on the allow-list. -/
def authReqEvil : OAuth21AuthParams :=
  ⟨some "code", some "cid", some "https://evil.example/cb", none, none, none, none⟩

/-- A syntactically valid, correctly authenticated token request naming a
redirect URI that is not on the allow-list. -/
def tokenReqEvil : TokenExchangeParams :=
  ⟨some "authorization_code", some "abc", some "https://evil.example/cb",
    some "cid", some "sec", none⟩

/-- C6 witness: both endpoints reject the concrete disallowed redirect URI
with `invalid_request`, the token endpoint without touching the upstream
exchange. -/
theorem c6_disallowed_redirect_rejected_witness :
    authorizeGET envConfigured (fun _ => true) authReqEvil =
      .errorJson "invalid_request" "Invalid redirect_uri" ∧
    tokenPOST envConfigured tokenReqEvil none (fun _ _ => .err "boom")
        (fun _ => .nullish) =
      ⟨.errorResponse "invalid_request" "Invalid redirect_uri", false⟩ :=
  ⟨c6_disallowed_redirect_rejected.1 envConfigured (fun _ => true) authReqEvil
      (by decide) (by decide) (by decide) (by decide),
   c6_disallowed_redirect_rejected.2 envConfigured tokenReqEvil none
      (fun _ _ => .err "boom") (fun _ => .nullish)
      (by decide) (by decide) (by decide) (by decide) (by decide) (by decide)⟩

end PersonSearch
